import Mathlib

/-!
Verification of the attendance/reporting core of the GNC puppet
membership-tracking application (server/storage.ts, server/routes.ts,
shared/schema.ts).

The entity collections are modelled as Lean lists of structures mirroring the
drizzle schema; calendar dates and timestamps are modelled as integers (the
value obtained by parsing the stored ISO date); JavaScript number arithmetic on
small integer counts is exact, and Math.round is modelled as the exact
rational operation x maps-to floor (x + 1/2) (JavaScript rounds halves toward
positive infinity).
-/

namespace GNC

/-- JavaScript Math.round: nearest integer, halves toward positive infinity. -/
def mathRound (q : ℚ) : ℤ := ⌊q + 1/2⌋

/-- A row of the members table (fields used by the reporting core). -/
structure Member where
  id : String
  name : String
deriving DecidableEq, Repr

/-- A row of the stories table; deleteStory soft-deletes via isActive. -/
structure Story where
  id : String
  name : String
  isActive : Bool
deriving DecidableEq, Repr

/-- A row of the roles table. -/
structure Role where
  id : String
  name : String
  isActive : Bool
deriving DecidableEq, Repr

/-- A row of the attendance table (shared/schema.ts).  Note: the schema has
columns roleId and replacedMemberId; there is no "role" or "replacedBy"
column.  status is one of "present", "absent", "replaced". -/
structure Attendance where
  id : String
  memberId : String
  date : Int
  status : String
  storyId : Option String
  roleId : Option String
  replacedMemberId : Option String
  eventType : Option String
deriving DecidableEq, Repr

/-- A row of the pollResponses table (fields used by the export core). -/
structure PollResponse where
  memberId : String
  selectedOption : Nat
  createdAt : Int
deriving DecidableEq, Repr

/-- A row of the polls table (fields used by the export core). -/
structure Poll where
  id : String
  question : String
  options : List String
deriving DecidableEq, Repr

/-- DatabaseStorage.getStories: SELECT from stories WHERE isActive = true.
The ORDER BY name clause is omitted: every consumer in scope looks stories up
by their unique id, which is order independent. -/
def getStories (allStories : List Story) : List Story :=
  allStories.filter (fun s => s.isActive)

/-- DatabaseStorage.deleteStory: UPDATE stories SET isActive = false WHERE
id matches (a soft delete; the row stays in the store). -/
def deleteStory (allStories : List Story) (storyId : String) : List Story :=
  allStories.map (fun s => if s.id == storyId then { s with isActive := false } else s)

/-- The denormalized view produced by DatabaseStorage.getAttendanceWithDetails:
the record plus the first id-matching row of each related collection, or none
when the foreign key dangles (Array.find returning undefined). -/
structure AttendanceWithDetails where
  record : Attendance
  member : Option Member
  story : Option Story
  role : Option Role
  replacedMember : Option Member
deriving DecidableEq, Repr

/-- DatabaseStorage.getAttendanceWithDetails: in-memory join of each attendance
record against the full member, story and role collections by primary-key
equality (storage.ts lines 261 to 274). -/
def getAttendanceWithDetails (allAttendance : List Attendance) (allMembers : List Member)
    (allStories : List Story) (allRoles : List Role) : List AttendanceWithDetails :=
  allAttendance.map (fun record =>
    { record := record
      member := allMembers.find? (fun m => m.id == record.memberId)
      story := allStories.find? (fun s => some s.id == record.storyId)
      role := allRoles.find? (fun r => some r.id == record.roleId)
      replacedMember := allMembers.find? (fun m => some m.id == record.replacedMemberId) })

/-- Count of records with status "present" or "replaced" (storage.ts line 449). -/
def presentCount (records : List Attendance) : Nat :=
  (records.filter (fun a => a.status == "present" || a.status == "replaced")).length

/-- Per-member attendance percentage (storage.ts lines 450 to 452):
Math.round((presentCount / memberAttendance.length) * 100), guarded to 0 when
the member has no records. -/
def memberPercentage (memberAttendance : List Attendance) : ℤ :=
  if 0 < memberAttendance.length then
    mathRound (((presentCount memberAttendance : ℚ) / (memberAttendance.length : ℚ)) * 100)
  else 0

/-- One entry of the per-member statistics array built by getReportStats. -/
structure MemberStat where
  name : String
  percentage : ℤ
deriving DecidableEq, Repr

/-- The memberStats array of getReportStats (storage.ts lines 447 to 454):
one entry per member, in member enumeration order. -/
def memberStats (allMembers : List Member) (allAttendance : List Attendance) : List MemberStat :=
  allMembers.map (fun member =>
    { name := member.name
      percentage := memberPercentage (allAttendance.filter (fun a => a.memberId == member.id)) })

/-- Stable insertion of a stat into a list sorted by percentage descending:
the inserted element goes before the first element whose percentage is not
strictly greater.  Inserting the original head into the stably sorted tail
therefore keeps ties in original enumeration order, which is exactly the
behavior of the ECMAScript stable Array.prototype.sort with the comparator
(a, b) => b.percentage - a.percentage used at storage.ts line 456. -/
def insertDesc (x : MemberStat) : List MemberStat → List MemberStat
  | [] => [x]
  | y :: ys => if x.percentage < y.percentage then y :: insertDesc x ys else x :: y :: ys

/-- The stable percentage-descending sort of storage.ts line 456. -/
def sortByPercentageDesc : List MemberStat → List MemberStat
  | [] => []
  | x :: xs => insertDesc x (sortByPercentageDesc xs)

/-- Result shape of DatabaseStorage.getReportStats. -/
structure ReportStats where
  totalMembers : Nat
  averageAttendance : ℤ
  topPerformers : List MemberStat
  lowPerformers : List MemberStat
deriving DecidableEq, Repr

/-- DatabaseStorage.getReportStats (storage.ts lines 438 to 468).  sorted is
the stable descending sort of memberStats; averageAttendance is
Math.round(sum of percentages / count) guarded to 0 with no members (the
source computes it from the same array after the in-place sort, which leaves
the sum unchanged); topPerformers is sorted.slice(0, 3) and lowPerformers is
sorted.slice(-3).reverse(). -/
def getReportStats (allMembers : List Member) (allAttendance : List Attendance) : ReportStats :=
  let stats := memberStats allMembers allAttendance
  let sorted := sortByPercentageDesc stats
  { totalMembers := allMembers.length
    averageAttendance :=
      if 0 < stats.length then
        mathRound ((((stats.map MemberStat.percentage).sum : ℚ)) / (stats.length : ℚ))
      else 0
    topPerformers := sorted.take 3
    lowPerformers := (sorted.drop (sorted.length - 3)).reverse }

/-- Poll tally, image branch of POST api/polls/export (routes, lines 1137 to
1151): votes for one option index. -/
def pollOptionCount (responses : List PollResponse) (idx : Nat) : Nat :=
  (responses.filter (fun r => r.selectedOption == idx)).length

/-- Percentage for one option: Math.round((count / responses.length) * 100),
0 when there are no responses. -/
def pollOptionPct (responses : List PollResponse) (idx : Nat) : ℤ :=
  if 0 < responses.length then
    mathRound (((pollOptionCount responses idx : ℚ) / (responses.length : ℚ)) * 100)
  else 0

/-- The per-option tally drawn by the image branch: for each option, in order,
its label, vote count and percentage. -/
def pollTally (options : List String) (responses : List PollResponse) :
    List (String × Nat × ℤ) :=
  options.enum.map (fun p => (p.2, pollOptionCount responses p.1, pollOptionPct responses p.1))

/-- The filters object of the POST api/reports/export request body.  For the
two date fields, none models a missing or empty (falsy) value, which skips the
bound check; the value carried by some is the parsed date.  For the four
string fields, none models a missing property (undefined in JavaScript). -/
structure Filters where
  dateFrom : Option Int
  dateTo : Option Int
  statusFilter : Option String
  storyFilter : Option String
  memberFilter : Option String
  eventFilter : Option String
deriving DecidableEq, Repr

/-- JavaScript strict equality between record.storyId (a nullable column,
none models null) and a filter value (none models undefined).  In JavaScript
null is not strictly equal to undefined, so the comparison only succeeds on
two equal strings. -/
def jsEqStrOpt : Option String → Option String → Bool
  | some a, some b => a == b
  | _, _ => false

/-- The per-record filter of POST api/reports/export (routes, lines 1183 to
1192), translated clause by clause.  Note the source has no clause for
filters.eventFilter. -/
def passesFilters (f : Filters) (record : Attendance) : Bool :=
  if f.dateFrom.elim false (fun d => decide (record.date < d)) then false
  else if f.dateTo.elim false (fun d => decide (d < record.date)) then false
  else if f.statusFilter != some "all" && some record.status != f.statusFilter then false
  else if f.storyFilter != some "all" && !(jsEqStrOpt record.storyId f.storyFilter) then false
  else if f.memberFilter != some "all" && some record.memberId != f.memberFilter then false
  else true

/-- The filtering step of the export route: when a filters object is present
the collection is filtered, otherwise it is passed through unchanged. -/
def filterAttendance (filters : Option Filters) (allAttendance : List Attendance) :
    List Attendance :=
  match filters with
  | some f => allAttendance.filter (passesFilters f)
  | none => allAttendance

/-- Spec-side predicate: a string filter value imposes no constraint when it
is absent, empty, or the sentinel "all". -/
def noFilterConstraint : Option String → Bool
  | none => true
  | some s => s == "" || s == "all"

/-- The filter as worded by the spec (section 4.2), for comparison with
passesFilters: six AND-combined predicates (dateFrom inclusive lower bound,
dateTo inclusive upper bound, exact matches on status, storyId, memberId and
eventType), where an absent, empty or "all" value imposes no constraint. -/
def specPassesFilters (f : Filters) (record : Attendance) : Bool :=
  f.dateFrom.elim true (fun d => decide (d ≤ record.date)) &&
  f.dateTo.elim true (fun d => decide (record.date ≤ d)) &&
  (noFilterConstraint f.statusFilter || f.statusFilter == some record.status) &&
  (noFilterConstraint f.storyFilter ||
    record.storyId.elim false (fun sid => f.storyFilter == some sid)) &&
  (noFilterConstraint f.memberFilter || f.memberFilter == some record.memberId) &&
  (noFilterConstraint f.eventFilter ||
    record.eventType.elim false (fun e => f.eventFilter == some e))

/-- Rendering of Date.toLocaleDateString on a parsed calendar date, modelled
as an injective textual rendering of the date value. -/
def formatDate (d : Int) : String := toString d

/-- Rendering of Date.toLocaleString on a timestamp, modelled as an injective
textual rendering of the timestamp value. -/
def formatDateTime (t : Int) : String := toString t

/-- The text truncation helper of the image branch (routes, line 1309):
text.length > maxLen ? text.substring(0, maxLen - 2) + ".." : text. -/
def truncate (text : String) (maxLen : Nat) : String :=
  if maxLen < text.length then text.take (maxLen - 2) ++ ".." else text

/-- Header row of the attendance excel sheet (routes, line 1196). -/
def excelHeader : List String :=
  ["Date", "Member", "Story", "Role", "Status", "Replaced By"]

/-- One data row of the attendance excel sheet (routes, lines 1197 to 1207).
The Role and Replaced By cells read record.role and record.replacedBy, fields
that do not exist on the attendance schema (its columns are roleId and
replacedMemberId), so in JavaScript both reads yield undefined and the
"or empty string" fallback makes the two cells always empty. -/
def excelRow (members : List Member) (stories : List Story) (record : Attendance) :
    List String :=
  let member := members.find? (fun m => m.id == record.memberId)
  let story := stories.find? (fun s => some s.id == record.storyId)
  [formatDate record.date,
   (member.map Member.name).getD "",
   (story.map Story.name).getD "",
   "",
   record.status,
   ""]

/-- The aoa ws_data grid of the excel branch: the header row followed by one
row per filtered record, in order. -/
def excelSheet (members : List Member) (stories : List Story)
    (filtered : List Attendance) : List (List String) :=
  excelHeader :: filtered.map (excelRow members stories)

/-- The model of writing the excel sheet and reading the written workbook
back: the xlsx encoding of a cell grid is faithful, so reading back returns
the grid; the data rows are the rows after the header. -/
def readBackDataRows (sheet : List (List String)) : List (List String) :=
  sheet.drop 1

/-- The four dash-separated parts of one pdf line (routes, line 1227):
date, member name or Unknown, story name or Unknown, uppercased status. -/
def pdfLineParts (members : List Member) (stories : List Story) (record : Attendance) :
    List String :=
  let member := members.find? (fun m => m.id == record.memberId)
  let story := stories.find? (fun s => some s.id == record.storyId)
  [formatDate record.date,
   (member.map Member.name).getD "Unknown",
   (story.map Story.name).getD "Unknown",
   record.status.toUpper]

/-- One rendered pdf line. -/
def pdfLine (members : List Member) (stories : List Story) (record : Attendance) : String :=
  String.intercalate " - " (pdfLineParts members stories record)

/-- The pdf branch renders filtered.slice(0, 100), one line per record. -/
def pdfLines (members : List Member) (stories : List Story)
    (filtered : List Attendance) : List String :=
  (filtered.take 100).map (pdfLine members stories)

/-- One drawn table row of the image branch (routes, lines 1296 to 1315),
with the per-column character budgets.  As in the excel branch, record.role
and record.replacedBy do not exist on the schema, so those cells fall back to
a dash. -/
def imageRow (members : List Member) (stories : List Story) (record : Attendance) :
    List String :=
  let member := members.find? (fun m => m.id == record.memberId)
  let story := stories.find? (fun s => some s.id == record.storyId)
  [truncate (formatDate record.date) 15,
   truncate ((member.map Member.name).getD "Unknown") 20,
   truncate ((story.map Story.name).getD "-") 25,
   truncate "-" 12,
   truncate record.status 10,
   truncate "-" 15]

/-- The drawn rows of the image branch: the cursor starts at y = 280,
advances 25 per drawn row, and a record is skipped once y exceeds 1500. -/
def imageRows (members : List Member) (stories : List Story)
    (filtered : List Attendance) : List (List String) :=
  (filtered.foldl
    (fun (acc : List (List String) × Nat) record =>
      if 1500 < acc.2 then acc
      else (acc.1 ++ [imageRow members stories record], acc.2 + 25))
    ([], 280)).1

/-- The body written by one of the three format branches of an export route. -/
inductive ExportOutput where
  | excel (sheet : List (List String))
  | pdf (lines : List String)
  | image (rows : List (List String))
deriving DecidableEq, Repr

/-- POST api/reports/export after the admin check (routes, lines 1177 to
1329): fetch all attendance, all members and the active stories, filter, then
dispatch on format.  The if/else chain has no final else, so an unrecognized
format writes nothing (modelled by none). -/
def reportsExport (format : String) (filters : Option Filters)
    (allAttendance : List Attendance) (allMembers : List Member)
    (allStories : List Story) : Option ExportOutput :=
  let stories := getStories allStories
  let filtered := filterAttendance filters allAttendance
  if format == "excel" then some (.excel (excelSheet allMembers stories filtered))
  else if format == "pdf" then some (.pdf (pdfLines allMembers stories filtered))
  else if format == "image" then some (.image (imageRows allMembers stories filtered))
  else none

/-- Rows of the poll results excel sheet (routes, lines 1073 to 1084): a
question row, a total row, a blank row, then one row per response with the
member name, the selected option label (Unknown when the index is out of
range or the label is empty, from the JavaScript falsy fallback) and the
response time. -/
def pollExcelRows (poll : Poll) (responses : List PollResponse)
    (members : List Member) : List (List String) :=
  [["Poll Question", poll.question],
   ["Total Responses", toString responses.length],
   []] ++
  responses.map (fun r =>
    [((members.find? (fun m => m.id == r.memberId)).map Member.name).getD "Unknown",
     (if poll.options.getD r.selectedOption "" == "" then "Unknown"
      else poll.options.getD r.selectedOption ""),
     formatDateTime r.createdAt])

/-- Lines of the poll results pdf (routes, lines 1104 to 1110): the first 100
responses, each as member name and selected option label. -/
def pollPdfLines (poll : Poll) (responses : List PollResponse)
    (members : List Member) : List String :=
  (responses.take 100).map (fun r =>
    (((members.find? (fun m => m.id == r.memberId)).map Member.name).getD "Unknown")
      ++ ": " ++
      (if poll.options.getD r.selectedOption "" == "" then "Unknown"
       else poll.options.getD r.selectedOption ""))

/-- POST api/polls/export after the admin check (routes, lines 1062 to 1161):
the poll is looked up first and a missing poll returns 404 before any
rendering; otherwise the format chain runs, again with no final else.  The
responses parameter stands for the per-branch response fetch.  (In the source
that fetch is storage.db with optional chaining; DatabaseStorage exposes no
db property, so at runtime the fetch degenerates to the empty list - the
theorems below therefore treat the fetched list as an input of the tally and
of the branch structure.) -/
def pollsExport (pollId format : String) (polls : List Poll)
    (responses : List PollResponse) (members : List Member) :
    Except String (Option ExportOutput) :=
  match polls.find? (fun p => p.id == pollId) with
  | none => Except.error "Poll not found"
  | some poll =>
      Except.ok
        (if format == "excel" then some (.excel (pollExcelRows poll responses members))
         else if format == "pdf" then some (.pdf (pollPdfLines poll responses members))
         else if format == "image" then some (.image ((pollTally poll.options responses).map
             (fun t => [t.1, toString t.2.1, toString t.2.2])))
         else none)

/-- The body actually written by the poll export: nothing on the not-found
path, otherwise whatever the format chain produced. -/
def pollsExportBody (pollId format : String) (polls : List Poll)
    (responses : List PollResponse) (members : List Member) : Option ExportOutput :=
  match pollsExport pollId format polls responses members with
  | Except.error _ => none
  | Except.ok body => body

/-- A block of attendance records for one member: pres records with status
"present" followed by abs records with status "absent". -/
def mkRecords (memberId : String) (pres abs : Nat) : List Attendance :=
  (List.range pres).map (fun _ =>
    { id := "", memberId := memberId, date := 0, status := "present",
      storyId := none, roleId := none, replacedMemberId := none, eventType := none }) ++
  (List.range abs).map (fun _ =>
    { id := "", memberId := memberId, date := 0, status := "absent",
      storyId := none, roleId := none, replacedMemberId := none, eventType := none })

/-- Five members for the worked ranking example. -/
def exMembersC1 : List Member :=
  [⟨"m1", "Alice"⟩, ⟨"m2", "Bob"⟩, ⟨"m3", "Cara"⟩, ⟨"m4", "Dev"⟩, ⟨"m5", "Eli"⟩]

/-- Attendance histories giving the five members the percentages
90, 80, 70, 60 and 50 in that enumeration order. -/
def exAttsC1 : List Attendance :=
  mkRecords "m1" 9 1 ++ mkRecords "m2" 4 1 ++ mkRecords "m3" 7 3 ++
  mkRecords "m4" 3 2 ++ mkRecords "m5" 1 1

/-- A filter specification whose only constraint, per the spec wording, is an
exact event-type match. -/
def exFiltersC3 : Filters :=
  { dateFrom := none, dateTo := none, statusFilter := some "all",
    storyFilter := some "all", memberFilter := some "all", eventFilter := some "JJ" }

/-- A filter specification with every field absent: per the spec wording it
imposes no constraint at all. -/
def exFiltersC3b : Filters :=
  { dateFrom := none, dateTo := none, statusFilter := none,
    storyFilter := none, memberFilter := none, eventFilter := none }

/-- A present record of a different event type than exFiltersC3 selects. -/
def exRecordC3 : Attendance :=
  { id := "a1", memberId := "m1", date := 0, status := "present",
    storyId := none, roleId := none, replacedMemberId := none, eventType := some "Holi" }

/-- Two members for the excel round-trip failing input. -/
def exMembersC4 : List Member := [⟨"m1", "Alice"⟩, ⟨"m2", "Bob"⟩]

/-- One active story for the excel round-trip failing input. -/
def exStoriesC4 : List Story := [⟨"s1", "Lumpy and Pooh", true⟩]

/-- A replaced record carrying a role and a replaced member, the data the
excel row fails to reproduce. -/
def exRecordC4 : Attendance :=
  { id := "a2", memberId := "m1", date := 100, status := "replaced",
    storyId := some "s1", roleId := some "r1", replacedMemberId := some "m2",
    eventType := none }

/-- Four poll responses: three for option 0 and one for option 1. -/
def exResponsesC6 : List PollResponse :=
  [⟨"m1", 0, 1⟩, ⟨"m2", 0, 2⟩, ⟨"m3", 0, 3⟩, ⟨"m4", 1, 4⟩]

/-- A record all four of whose foreign keys dangle against empty collections. -/
def exRecordC7 : Attendance :=
  { id := "a7", memberId := "mX", date := 0, status := "present",
    storyId := some "sX", roleId := some "rX", replacedMemberId := some "mY",
    eventType := none }

/-- A store holding one story, to be soft-deleted in the C10 witness. -/
def exStoriesC10 : List Story := [⟨"s1", "Lumpy and Pooh", true⟩]

/-- A record referencing the story of exStoriesC10. -/
def exRecordC10 : Attendance :=
  { id := "a10", memberId := "m1", date := 5, status := "present",
    storyId := some "s1", roleId := none, replacedMemberId := none, eventType := none }

/-! ## Helper lemmas -/

theorem mathRound_nonneg {q : ℚ} (h : 0 ≤ q) : 0 ≤ mathRound q := by
  unfold mathRound
  exact Int.le_floor.mpr (by push_cast; linarith)

theorem mathRound_le_hundred {q : ℚ} (h : q ≤ 100) : mathRound q ≤ 100 := by
  unfold mathRound
  have h2 : q + 1/2 ≤ (201 : ℚ)/2 := by linarith
  calc ⌊q + 1/2⌋ ≤ ⌊(201 : ℚ)/2⌋ := Int.floor_mono h2
    _ = 100 := by norm_num

/-- The ratio percentage of p out of n, as computed by the source
(Math.round((p / n) * 100)), lies between 0 and 100 whenever p ≤ n. -/
theorem ratioPct_bounds (p n : Nat) (hpn : p ≤ n) :
    0 ≤ mathRound (((p : ℚ) / (n : ℚ)) * 100) ∧
      mathRound (((p : ℚ) / (n : ℚ)) * 100) ≤ 100 := by
  rcases Nat.eq_zero_or_pos n with hn | hn
  · subst hn
    constructor
    · exact mathRound_nonneg (by norm_num)
    · exact mathRound_le_hundred (by norm_num)
  · have hn' : (0 : ℚ) < (n : ℚ) := by exact_mod_cast hn
    have hq1 : ((p : ℚ) / (n : ℚ)) ≤ 1 :=
      (div_le_one hn').mpr (by exact_mod_cast hpn)
    have hq0 : (0 : ℚ) ≤ (p : ℚ) / (n : ℚ) :=
      div_nonneg (by positivity) (le_of_lt hn')
    exact ⟨mathRound_nonneg (by linarith), mathRound_le_hundred (by linarith)⟩

theorem ratio_mul_comm (p n : Nat) :
    ((p : ℚ) / (n : ℚ)) * 100 = (100 * (p : ℚ)) / (n : ℚ) := by
  ring

/-! ## C2: per-member attendance percentage -/

/-- C2.  For every member enumerated by getReportStats, the per-member
percentage equals round(100 * P / N) with N the count of all attendance
records of the member and P the count of those with status present or replaced;
it is exactly 0 when N = 0; and it always lies between 0 and 100. -/
theorem memberPercentage_spec (allMembers : List Member) (allAttendance : List Attendance)
    (m : Member) (hm : m ∈ allMembers) :
    (MemberStat.mk m.name
        (memberPercentage (allAttendance.filter (fun a => a.memberId == m.id)))
      ∈ memberStats allMembers allAttendance) ∧
    (∀ recs : List Attendance,
      memberPercentage recs =
        if recs.length = 0 then 0
        else mathRound ((100 * (presentCount recs : ℚ)) / (recs.length : ℚ))) ∧
    (∀ recs : List Attendance,
      0 ≤ memberPercentage recs ∧ memberPercentage recs ≤ 100) := by
  refine ⟨?_, ?_, ?_⟩
  · exact List.mem_map_of_mem _ hm
  · intro recs
    unfold memberPercentage
    rcases Nat.eq_zero_or_pos recs.length with h | h
    · simp [h]
    · rw [if_pos h, if_neg (by omega), ratio_mul_comm]
  · intro recs
    unfold memberPercentage
    rcases Nat.eq_zero_or_pos recs.length with h | h
    · simp [h]
    · rw [if_pos h]
      exact ratioPct_bounds _ _ (List.length_filter_le _ _)

/-- Witness for memberPercentage_spec at a concrete member and history:
Alice has 9 present and 1 absent record, giving percentage 90. -/
theorem memberPercentage_spec_witness :
    (MemberStat.mk "Alice"
        (memberPercentage (exAttsC1.filter (fun a => a.memberId == "m1")))
      ∈ memberStats exMembersC1 exAttsC1) ∧
    memberPercentage (exAttsC1.filter (fun a => a.memberId == "m1")) = 90 ∧
    memberPercentage [] = 0 := by
  have h := memberPercentage_spec exMembersC1 exAttsC1 ⟨"m1", "Alice"⟩ (by decide)
  have hf : exAttsC1.filter (fun a => a.memberId == "m1") = mkRecords "m1" 9 1 := by decide
  have hlen : (mkRecords "m1" 9 1).length = 10 := by decide
  have hpc : presentCount (mkRecords "m1" 9 1) = 9 := by decide
  have h90 : memberPercentage (mkRecords "m1" 9 1) = 90 := by
    unfold memberPercentage mathRound
    rw [hlen, hpc]
    norm_num
  refine ⟨h.1, by rw [hf]; exact h90, ?_⟩
  have h0 := (h.2.1) []
  simpa using h0

theorem insertDesc_perm (x : MemberStat) (l : List MemberStat) :
    List.Perm (insertDesc x l) (x :: l) := by
  induction l with
  | nil => simp [insertDesc]
  | cons y ys ih =>
    by_cases h : x.percentage < y.percentage
    · simp only [insertDesc, if_pos h]
      exact (ih.cons y).trans (List.Perm.swap x y ys)
    · simp only [insertDesc, if_neg h]
      exact List.Perm.refl _

theorem insertDesc_pairwise (x : MemberStat) {l : List MemberStat}
    (hl : l.Pairwise (fun a b => b.percentage ≤ a.percentage)) :
    (insertDesc x l).Pairwise (fun a b => b.percentage ≤ a.percentage) := by
  induction l with
  | nil => simp [insertDesc]
  | cons y ys ih =>
    rcases List.pairwise_cons.mp hl with ⟨hy, hys⟩
    by_cases h : x.percentage < y.percentage
    · simp only [insertDesc, if_pos h]
      refine List.pairwise_cons.mpr ⟨?_, ih hys⟩
      intro z hz
      rcases List.mem_cons.mp ((insertDesc_perm x ys).subset hz) with rfl | hz'
      · exact le_of_lt h
      · exact hy z hz'
    · simp only [insertDesc, if_neg h]
      refine List.pairwise_cons.mpr ⟨?_, hl⟩
      intro z hz
      rcases List.mem_cons.mp hz with rfl | hz'
      · exact not_lt.mp h
      · exact le_trans (hy z hz') (not_lt.mp h)

theorem sortDesc_perm (l : List MemberStat) : List.Perm (sortByPercentageDesc l) l := by
  induction l with
  | nil => simp [sortByPercentageDesc]
  | cons x xs ih =>
    exact (insertDesc_perm x (sortByPercentageDesc xs)).trans (ih.cons x)

theorem sortDesc_pairwise (l : List MemberStat) :
    (sortByPercentageDesc l).Pairwise (fun a b => b.percentage ≤ a.percentage) := by
  induction l with
  | nil => simp [sortByPercentageDesc]
  | cons x xs ih => exact insertDesc_pairwise x ih

theorem filter_insertDesc (q : ℤ) (x : MemberStat) (l : List MemberStat) :
    (insertDesc x l).filter (fun s => s.percentage == q)
      = (x :: l).filter (fun s => s.percentage == q) := by
  induction l with
  | nil => rfl
  | cons y ys ih =>
    by_cases h : x.percentage < y.percentage
    · simp only [insertDesc, if_pos h]
      by_cases hy : y.percentage = q
      · have hx : ¬ x.percentage = q := by omega
        simp [List.filter_cons, hy, hx, ih]
      · by_cases hx : x.percentage = q
        · simp [List.filter_cons, hy, hx, ih]
        · simp [List.filter_cons, hy, hx, ih]
    · simp only [insertDesc, if_neg h]

theorem filter_sortDesc (q : ℤ) (l : List MemberStat) :
    (sortByPercentageDesc l).filter (fun s => s.percentage == q)
      = l.filter (fun s => s.percentage == q) := by
  induction l with
  | nil => rfl
  | cons x xs ih =>
    show (insertDesc x (sortByPercentageDesc xs)).filter _ = _
    rw [filter_insertDesc]
    simp [List.filter_cons, ih]

/-- The per-member statistics of the worked five-member example. -/
theorem exStatsEval : memberStats exMembersC1 exAttsC1 =
    [⟨"Alice", 90⟩, ⟨"Bob", 80⟩, ⟨"Cara", 70⟩, ⟨"Dev", 60⟩, ⟨"Eli", 50⟩] := by
  have e1 : exAttsC1.filter (fun a => a.memberId == "m1") = mkRecords "m1" 9 1 := by decide
  have e2 : exAttsC1.filter (fun a => a.memberId == "m2") = mkRecords "m2" 4 1 := by decide
  have e3 : exAttsC1.filter (fun a => a.memberId == "m3") = mkRecords "m3" 7 3 := by decide
  have e4 : exAttsC1.filter (fun a => a.memberId == "m4") = mkRecords "m4" 3 2 := by decide
  have e5 : exAttsC1.filter (fun a => a.memberId == "m5") = mkRecords "m5" 1 1 := by decide
  have p1 : memberPercentage (mkRecords "m1" 9 1) = 90 := by
    unfold memberPercentage mathRound
    rw [show (mkRecords "m1" 9 1).length = 10 from by decide,
      show presentCount (mkRecords "m1" 9 1) = 9 from by decide]
    norm_num
  have p2 : memberPercentage (mkRecords "m2" 4 1) = 80 := by
    unfold memberPercentage mathRound
    rw [show (mkRecords "m2" 4 1).length = 5 from by decide,
      show presentCount (mkRecords "m2" 4 1) = 4 from by decide]
    norm_num
  have p3 : memberPercentage (mkRecords "m3" 7 3) = 70 := by
    unfold memberPercentage mathRound
    rw [show (mkRecords "m3" 7 3).length = 10 from by decide,
      show presentCount (mkRecords "m3" 7 3) = 7 from by decide]
    norm_num
  have p4 : memberPercentage (mkRecords "m4" 3 2) = 60 := by
    unfold memberPercentage mathRound
    rw [show (mkRecords "m4" 3 2).length = 5 from by decide,
      show presentCount (mkRecords "m4" 3 2) = 3 from by decide]
    norm_num
  have p5 : memberPercentage (mkRecords "m5" 1 1) = 50 := by
    unfold memberPercentage mathRound
    rw [show (mkRecords "m5" 1 1).length = 2 from by decide,
      show presentCount (mkRecords "m5" 1 1) = 1 from by decide]
    norm_num
  simp only [memberStats, exMembersC1, List.map_cons, List.map_nil]
  rw [e1, e2, e3, e4, e5, p1, p2, p3, p4, p5]

/-! ## C1: top and bottom performer ranking -/

/-- C1.  getReportStats ranks by sorting memberStats by percentage descending
with a stable sort (ties keep enumeration order: the sorted list restricted
to any one percentage equals the original list so restricted); topPerformers
is the first three entries of the sorted list and lowPerformers is the last
three reversed; with fewer than three members each list has as many entries
as exist; and on the worked example with percentages 90, 80, 70, 60, 50 the
results are [90, 80, 70] and [50, 60, 70], with the middle member appearing
in both lists. -/
theorem getReportStats_ranking :
    (∀ (allMembers : List Member) (allAttendance : List Attendance),
      List.Pairwise (fun a b => b.percentage ≤ a.percentage)
        (sortByPercentageDesc (memberStats allMembers allAttendance)) ∧
      List.Perm (sortByPercentageDesc (memberStats allMembers allAttendance))
        (memberStats allMembers allAttendance) ∧
      (∀ q : ℤ,
        (sortByPercentageDesc (memberStats allMembers allAttendance)).filter
            (fun s => s.percentage == q)
          = (memberStats allMembers allAttendance).filter (fun s => s.percentage == q)) ∧
      (getReportStats allMembers allAttendance).topPerformers
          = (sortByPercentageDesc (memberStats allMembers allAttendance)).take 3 ∧
      (getReportStats allMembers allAttendance).lowPerformers
          = ((sortByPercentageDesc (memberStats allMembers allAttendance)).drop
              ((sortByPercentageDesc (memberStats allMembers allAttendance)).length - 3)).reverse ∧
      (getReportStats allMembers allAttendance).topPerformers.length
          = min 3 allMembers.length ∧
      (getReportStats allMembers allAttendance).lowPerformers.length
          = min 3 allMembers.length) ∧
    ((getReportStats exMembersC1 exAttsC1).topPerformers.map MemberStat.percentage
        = [90, 80, 70] ∧
     (getReportStats exMembersC1 exAttsC1).lowPerformers.map MemberStat.percentage
        = [50, 60, 70] ∧
     MemberStat.mk "Cara" 70 ∈ (getReportStats exMembersC1 exAttsC1).topPerformers ∧
     MemberStat.mk "Cara" 70 ∈ (getReportStats exMembersC1 exAttsC1).lowPerformers) := by
  have hlen : ∀ (ms : List Member) (ats : List Attendance),
      (sortByPercentageDesc (memberStats ms ats)).length = ms.length := by
    intro ms ats
    rw [(sortDesc_perm (memberStats ms ats)).length_eq]
    simp [memberStats]
  constructor
  · intro allMembers allAttendance
    refine ⟨sortDesc_pairwise _, sortDesc_perm _, fun q => filter_sortDesc q _, rfl, rfl, ?_, ?_⟩
    · simp only [getReportStats, List.length_take]
      rw [hlen]
    · simp only [getReportStats, List.length_reverse, List.length_drop]
      rw [hlen]
      omega
  · have hs := exStatsEval
    have htop : (getReportStats exMembersC1 exAttsC1).topPerformers
        = (sortByPercentageDesc (memberStats exMembersC1 exAttsC1)).take 3 := rfl
    have hlow : (getReportStats exMembersC1 exAttsC1).lowPerformers
        = ((sortByPercentageDesc (memberStats exMembersC1 exAttsC1)).drop
            ((sortByPercentageDesc (memberStats exMembersC1 exAttsC1)).length - 3)).reverse := rfl
    rw [htop, hlow, hs]
    refine ⟨by decide, by decide, by decide, by decide⟩

/-! ## C5: organization-wide average attendance -/

/-- C5.  averageAttendance is 0 with no members, and otherwise is the rounded
unweighted arithmetic mean of the per-member percentages (the sum of the
memberStats percentages divided by the member count). -/
theorem averageAttendance_spec (allMembers : List Member) (allAttendance : List Attendance) :
    (allMembers = [] → (getReportStats allMembers allAttendance).averageAttendance = 0) ∧
    (allMembers ≠ [] →
      (getReportStats allMembers allAttendance).averageAttendance
        = mathRound ((((memberStats allMembers allAttendance).map MemberStat.percentage).sum : ℚ)
            / (allMembers.length : ℚ))) := by
  have hlen : (memberStats allMembers allAttendance).length = allMembers.length := by
    simp [memberStats]
  constructor
  · rintro rfl
    simp [getReportStats, memberStats]
  · intro h
    have hpos : 0 < (memberStats allMembers allAttendance).length := by
      rw [hlen]
      exact List.length_pos.mpr h
    simp only [getReportStats, if_pos hpos, hlen]
    rw [if_pos (List.length_pos.mpr h)]

/-- Witness for averageAttendance_spec: zero members give average 0, and the
worked five-member example (percentages 90, 80, 70, 60, 50) gives 70. -/
theorem averageAttendance_spec_witness :
    (getReportStats [] []).averageAttendance = 0 ∧
    (getReportStats exMembersC1 exAttsC1).averageAttendance = 70 := by
  constructor
  · exact (averageAttendance_spec [] []).1 rfl
  · have h := (averageAttendance_spec exMembersC1 exAttsC1).2 (by decide)
    rw [h, exStatsEval]
    unfold mathRound
    norm_num [exMembersC1]

/-! ## C6: poll tally -/

/-- C6.  The poll tally pairs each option, in order, with the count of
responses selecting its index and with round(100 * count / totalResponses);
each count is at most the response total; a zero response total gives every
option percentage 0; percentages stay between 0 and 100; and the worked
example (options A and B, three responses for index 0, one for index 1)
yields counts 3 and 1 with percentages 75 and 25. -/
theorem pollTally_spec :
    (∀ (options : List String) (responses : List PollResponse),
      (pollTally options responses).map Prod.fst = options ∧
      (pollTally options responses).map (fun t => t.2.1)
        = (List.range options.length).map (fun i => pollOptionCount responses i) ∧
      (pollTally options responses).map (fun t => t.2.2)
        = (List.range options.length).map (fun i => pollOptionPct responses i)) ∧
    (∀ (responses : List PollResponse) (i : Nat),
      pollOptionCount responses i ≤ responses.length ∧
      (responses.length = 0 → pollOptionPct responses i = 0) ∧
      (0 < responses.length →
        pollOptionPct responses i
          = mathRound ((100 * (pollOptionCount responses i : ℚ)) / (responses.length : ℚ))) ∧
      0 ≤ pollOptionPct responses i ∧ pollOptionPct responses i ≤ 100) ∧
    pollTally ["A", "B"] exResponsesC6 = [("A", 3, 75), ("B", 1, 25)] := by
  refine ⟨?_, ?_, ?_⟩
  · intro options responses
    refine ⟨?_, ?_, ?_⟩
    · rw [pollTally, List.map_map]
      exact List.enum_map_snd options
    · rw [pollTally, List.map_map]
      rw [show ((fun t : String × Nat × ℤ => t.2.1) ∘
          (fun p : Nat × String =>
            (p.2, pollOptionCount responses p.1, pollOptionPct responses p.1)))
          = (fun i => pollOptionCount responses i) ∘ Prod.fst from rfl]
      rw [← List.map_map, List.enum_map_fst]
    · rw [pollTally, List.map_map]
      rw [show ((fun t : String × Nat × ℤ => t.2.2) ∘
          (fun p : Nat × String =>
            (p.2, pollOptionCount responses p.1, pollOptionPct responses p.1)))
          = (fun i => pollOptionPct responses i) ∘ Prod.fst from rfl]
      rw [← List.map_map, List.enum_map_fst]
  · intro responses i
    refine ⟨List.length_filter_le _ _, ?_, ?_, ?_⟩
    · intro h
      simp [pollOptionPct, h]
    · intro h
      rw [pollOptionPct, if_pos h, ratio_mul_comm]
    · unfold pollOptionPct
      rcases Nat.eq_zero_or_pos responses.length with h | h
      · simp [h]
      · rw [if_pos h]
        exact ratioPct_bounds _ _ (List.length_filter_le _ _)
  · have c0 : pollOptionCount exResponsesC6 0 = 3 := by decide
    have c1 : pollOptionCount exResponsesC6 1 = 1 := by decide
    have q0 : pollOptionPct exResponsesC6 0 = 75 := by
      unfold pollOptionPct mathRound
      rw [show exResponsesC6.length = 4 from by decide, c0]
      norm_num
    have q1 : pollOptionPct exResponsesC6 1 = 25 := by
      unfold pollOptionPct mathRound
      rw [show exResponsesC6.length = 4 from by decide, c1]
      norm_num
    have hform : pollTally ["A", "B"] exResponsesC6
        = [("A", pollOptionCount exResponsesC6 0, pollOptionPct exResponsesC6 0),
           ("B", pollOptionCount exResponsesC6 1, pollOptionPct exResponsesC6 1)] := rfl
    rw [hform, c0, c1, q0, q1]

/-- Witness for pollTally_spec at the worked responses: the formula clause
applies with four responses. -/
theorem pollTally_spec_witness :
    pollOptionCount exResponsesC6 0 ≤ exResponsesC6.length ∧
    pollOptionPct exResponsesC6 0
      = mathRound ((100 * (pollOptionCount exResponsesC6 0 : ℚ)) / (exResponsesC6.length : ℚ)) := by
  have h := pollTally_spec.2.1 exResponsesC6 0
  exact ⟨h.1, h.2.2.1 (by decide)⟩

/-! ## C7: dangling foreign keys degrade to absent relations -/

/-- C7.  getAttendanceWithDetails is total (one joined record per input
record, never an error), and whenever a foreign key matches no entity in the
corresponding collection the attached relation is none. -/
theorem danglingForeignKey_degrades (allAttendance : List Attendance)
    (allMembers : List Member) (allStories : List Story) (allRoles : List Role) :
    (getAttendanceWithDetails allAttendance allMembers allStories allRoles).length
        = allAttendance.length ∧
    ∀ j ∈ getAttendanceWithDetails allAttendance allMembers allStories allRoles,
      ((∀ s ∈ allStories, some s.id ≠ j.record.storyId) → j.story = none) ∧
      ((∀ m ∈ allMembers, m.id ≠ j.record.memberId) → j.member = none) ∧
      ((∀ r ∈ allRoles, some r.id ≠ j.record.roleId) → j.role = none) ∧
      ((∀ m ∈ allMembers, some m.id ≠ j.record.replacedMemberId) → j.replacedMember = none) := by
  constructor
  · simp [getAttendanceWithDetails]
  · intro j hj
    rcases List.mem_map.mp hj with ⟨rec, _, rfl⟩
    refine ⟨?_, ?_, ?_, ?_⟩
    · intro hnone
      apply List.find?_eq_none.mpr
      intro s hs
      simpa using hnone s hs
    · intro hnone
      apply List.find?_eq_none.mpr
      intro m hm
      simpa using hnone m hm
    · intro hnone
      apply List.find?_eq_none.mpr
      intro r hr
      simpa using hnone r hr
    · intro hnone
      apply List.find?_eq_none.mpr
      intro m hm
      simpa using hnone m hm

/-- Witness for danglingForeignKey_degrades: a record all of whose foreign
keys dangle against empty collections joins to four absent relations. -/
theorem danglingForeignKey_degrades_witness :
    (getAttendanceWithDetails [exRecordC7] [] [] []).length = 1 ∧
    (AttendanceWithDetails.mk exRecordC7 none none none none).story = none ∧
    (AttendanceWithDetails.mk exRecordC7 none none none none).member = none ∧
    (AttendanceWithDetails.mk exRecordC7 none none none none).role = none ∧
    (AttendanceWithDetails.mk exRecordC7 none none none none).replacedMember = none := by
  have h := danglingForeignKey_degrades [exRecordC7] [] [] []
  have hj := h.2 (AttendanceWithDetails.mk exRecordC7 none none none none) (by decide)
  exact ⟨h.1, hj.1 (by decide), hj.2.1 (by decide), hj.2.2.1 (by decide), hj.2.2.2 (by decide)⟩

/-! ## C8: poll export aborts on a missing poll -/

/-- C8.  When no poll matches the requested id, the poll export returns the
not-found error before any format branch runs, and no body is written. -/
theorem pollExportNotFound (pollId format : String) (polls : List Poll)
    (responses : List PollResponse) (members : List Member)
    (h : polls.find? (fun p => p.id == pollId) = none) :
    pollsExport pollId format polls responses members = Except.error "Poll not found" ∧
    pollsExportBody pollId format polls responses members = none := by
  refine ⟨by simp [pollsExport, h], by simp [pollsExportBody, pollsExport, h]⟩

/-- Witness for pollExportNotFound: an empty poll store. -/
theorem pollExportNotFound_witness :
    pollsExport "p1" "excel" [] [] [] = Except.error "Poll not found" ∧
    pollsExportBody "p1" "excel" [] [] [] = none :=
  pollExportNotFound "p1" "excel" [] [] [] rfl

/-! ## C9: unrecognized export format writes nothing -/

/-- C9.  A format selector other than excel, pdf or image makes both export
handlers fall through every rendering branch and write no body. -/
theorem unknownFormat_no_output (format : String) (filters : Option Filters)
    (allAttendance : List Attendance) (allMembers : List Member) (allStories : List Story)
    (pollId : String) (polls : List Poll) (responses : List PollResponse)
    (hx : format ≠ "excel") (hp : format ≠ "pdf") (hi : format ≠ "image") :
    reportsExport format filters allAttendance allMembers allStories = none ∧
    pollsExportBody pollId format polls responses allMembers = none := by
  have bx : (format == "excel") = false := beq_eq_false_iff_ne.mpr hx
  have bp : (format == "pdf") = false := beq_eq_false_iff_ne.mpr hp
  have bi : (format == "image") = false := beq_eq_false_iff_ne.mpr hi
  constructor
  · simp [reportsExport, bx, bp, bi]
  · unfold pollsExportBody pollsExport
    cases polls.find? (fun p => p.id == pollId) with
    | none => rfl
    | some poll => simp [bx, bp, bi]

/-- Witness for unknownFormat_no_output at the unrecognized format csv. -/
theorem unknownFormat_no_output_witness :
    reportsExport "csv" none [] [] [] = none ∧
    pollsExportBody "p1" "csv" [] [] [] = none :=
  unknownFormat_no_output "csv" none [] [] [] "p1" [] []
    (by decide) (by decide) (by decide)

/-! ## C10: exports join against active stories only -/

/-- C10.  After a story is soft-deleted, its row is still in the store, but
the export pipeline joins against getStories (active stories only), so a
record referencing it finds no story and every export branch renders the
absent-story placeholder in the story column (empty in excel, Unknown in
pdf, a dash in the image). -/
theorem softDeletedStory_absent (allStories : List Story) (storyId : String)
    (record : Attendance) (members : List Member)
    (hex : ∃ s ∈ allStories, s.id = storyId)
    (href : record.storyId = some storyId) :
    (∃ s ∈ deleteStory allStories storyId, s.id = storyId) ∧
    (getStories (deleteStory allStories storyId)).find?
        (fun s => some s.id == record.storyId) = none ∧
    (excelRow members (getStories (deleteStory allStories storyId)) record).get? 2
        = some "" ∧
    (pdfLineParts members (getStories (deleteStory allStories storyId)) record).get? 2
        = some "Unknown" ∧
    (imageRow members (getStories (deleteStory allStories storyId)) record).get? 2
        = some "-" := by
  have hfind : (getStories (deleteStory allStories storyId)).find?
      (fun s => some s.id == record.storyId) = none := by
    apply List.find?_eq_none.mpr
    intro s hs
    rcases List.mem_filter.mp hs with ⟨hs', hact⟩
    rcases List.mem_map.mp hs' with ⟨t, _, rfl⟩
    by_cases hid : t.id = storyId
    · exfalso
      simp [hid] at hact
    · have hne : (t.id == storyId) = false := beq_eq_false_iff_ne.mpr hid
      simp [hne, href, hid]
  have htr : truncate "-" 25 = "-" := by decide
  refine ⟨?_, hfind, ?_, ?_, ?_⟩
  · rcases hex with ⟨s, hsmem, hsid⟩
    refine ⟨(fun u => if u.id == storyId then { u with isActive := false } else u) s,
      List.mem_map_of_mem _ hsmem, ?_⟩
    simp [hsid]
  · simp [excelRow, hfind]
  · simp [pdfLineParts, hfind]
  · simp [imageRow, hfind, htr]

/-- Witness for softDeletedStory_absent: one story soft-deleted out of a
one-story store, referenced by a present record. -/
theorem softDeletedStory_absent_witness :
    (∃ s ∈ deleteStory exStoriesC10 "s1", s.id = "s1") ∧
    (getStories (deleteStory exStoriesC10 "s1")).find?
        (fun s => some s.id == exRecordC10.storyId) = none ∧
    (excelRow [] (getStories (deleteStory exStoriesC10 "s1")) exRecordC10).get? 2
        = some "" ∧
    (pdfLineParts [] (getStories (deleteStory exStoriesC10 "s1")) exRecordC10).get? 2
        = some "Unknown" ∧
    (imageRow [] (getStories (deleteStory exStoriesC10 "s1")) exRecordC10).get? 2
        = some "-" :=
  softDeletedStory_absent exStoriesC10 "s1" exRecordC10 []
    ⟨⟨"s1", "Lumpy and Pooh", true⟩, by decide, rfl⟩ rfl

/-! ## C3: the export filter versus its specification -/

/-- C3 (code evidence).  The server-side export filter diverges from the
six-predicate specification: a record whose event type differs from the
requested eventFilter still passes (the source has no eventFilter clause),
and a filter specification with the string filters absent rejects every
record instead of imposing no constraint. -/
theorem exportFilter_ignores_eventFilter :
    passesFilters exFiltersC3 exRecordC3 = true ∧
    specPassesFilters exFiltersC3 exRecordC3 = false ∧
    filterAttendance (some exFiltersC3) [exRecordC3] = [exRecordC3] ∧
    passesFilters exFiltersC3b exRecordC3 = false ∧
    specPassesFilters exFiltersC3b exRecordC3 = true ∧
    filterAttendance (some exFiltersC3b) [exRecordC3] = [] := by
  refine ⟨by decide, by decide, by decide, by decide, by decide, by decide⟩

/-! ## C4: the excel round trip loses role and replaced-member data -/

/-- C4 (code evidence).  The excel row written for a record that carries a
roleId and a replacedMemberId has empty Role and Replaced By cells (the
source reads the nonexistent fields record.role and record.replacedBy), so
reading the sheet back cannot reproduce those column values; the row count
round-trips (one data row for the one filtered record plus the header). -/
theorem excelExport_loses_role_and_replacedBy :
    exRecordC4.roleId = some "r1" ∧
    exRecordC4.replacedMemberId = some "m2" ∧
    excelRow exMembersC4 exStoriesC4 exRecordC4
      = [formatDate 100, "Alice", "Lumpy and Pooh", "", "replaced", ""] ∧
    readBackDataRows (excelSheet exMembersC4 exStoriesC4 [exRecordC4])
      = [excelRow exMembersC4 exStoriesC4 exRecordC4] ∧
    (excelSheet exMembersC4 exStoriesC4 [exRecordC4]).length = 2 := by
  refine ⟨rfl, rfl, by decide, by decide, by decide⟩

end GNC
